import Mathlib

/-!
Verification development for the AIDP repository
(`AI_picker_public/tflib/model.py` and `AI_picker_public/convnet/config.py`).

The Python code is a thin wrapper around a tensor-computation framework:
an abstract base class `BaseModel` with a training loop `train`, checkpoint
`save`/`load`, and a plain hyperparameter holder `Config`.  We embed the
repository shallowly: the training loop is modelled as a function consuming a
trace of events (a successful train-step carrying the fetched global step, an
exception raised inside the loop, or the coordinator signalling stop) and
producing the list of externally visible effects together with an outcome.
-/

namespace AIDP

/-- Exceptions that can surface inside the training loop of
`BaseModel.train`.  `keyboardInterrupt` and `outOfRangeError` are the two
kinds named by the `except` clauses; `typeError` arises from `int % None`,
`zeroDivisionError` from `int % 0`; `other` stands for any further
exception kind, abstracted by a numeric code. -/
inductive PyExc
  | keyboardInterrupt
  | outOfRangeError
  | typeError
  | zeroDivisionError
  | other (code : Nat)
deriving DecidableEq, Repr

/-- One event of an execution of the training loop: the coordinator's
`should_stop()` turning true before an iteration, a `_train_step` call
returning with fetched global step `s`, or `_train_step` raising an
exception. -/
inductive TrainEvent
  | coordStop
  | stepResult (s : Nat)
  | stepRaise (e : PyExc)
deriving DecidableEq, Repr

/-- Externally visible effects of `BaseModel.train`, `save` and `load`, in
program order. -/
inductive Effect
  | createFileWriter (dir : String)
  | initLocalVars
  | initGlobalVars
  | readCheckpoint (dir : String)
  | startCoordinator
  | startThreads
  | trainStep
  | addSummary (step : Nat)
  | ensureDir (dir : String)
  | writeCheckpoint (path : String)
  | requestStop
  | closeWriter
  | joinThreads
deriving DecidableEq, Repr

/-- How the `while not coord.should_stop()` loop of `train` ended. -/
inductive LoopExit
  | normal
  | interrupted
  | exhausted
  | uncaught (e : PyExc)
  | ranOut
deriving DecidableEq, Repr

/-- Outcome of a call to `train`: a normal return, an exception propagating
out of `train`, or the loop still running (the supplied event trace ended
without a terminating event). -/
inductive Outcome
  | returned
  | raised (e : PyExc)
  | running
deriving DecidableEq, Repr

/-- `os.path.join(a, b)` for POSIX paths, as used by `save` and `load`. -/
def os_path_join (a b : String) : String :=
  if b.startsWith "/" then b
  else if a = "" || a.endsWith "/" then a ++ b
  else a ++ "/" ++ b

/-- Effects of `BaseModel.save`: compute `join(checkpoint_dir, 'model')`,
create `checkpoint_dir` if it does not exist, and write the checkpoint at
that path (the framework's saver appends the global step to the name). -/
def save_effects (dir : String) : List Effect :=
  [Effect.ensureDir dir, Effect.writeCheckpoint (os_path_join dir "model")]

/-- Effects of `BaseModel.load` as called from `train` (with `step=None`):
it locates `tf.train.latest_checkpoint(checkpoint_dir)` and restores from
that path inside `checkpoint_dir`, i.e. it reads the checkpoint
directory. -/
def load_effects (dir : String) : List Effect :=
  [Effect.readCheckpoint dir]

/-- Python's `step % m` where `m` is an `int` or `None`: `int % None` raises
a `TypeError`, `int % 0` raises a `ZeroDivisionError`. -/
def pymod (a : Nat) : Option Nat → Except PyExc Nat
  | none => Except.error PyExc.typeError
  | some 0 => Except.error PyExc.zeroDivisionError
  | some m => Except.ok (a % m)

/-- The guard `step > 0 and step % summary_step == 0` with Python's
short-circuit `and`: for `step = 0` the modulus is never evaluated. -/
def summaryGuard (s : Nat) (sstep : Option Nat) : Except PyExc Bool :=
  if 0 < s then (pymod s sstep).map (fun r => r == 0) else Except.ok false

/-- The guard `checkpoint_step is not None and (step > 0) and
step % checkpoint_step == 0`, again with short-circuit `and`. -/
def checkpointGuard (s : Nat) (cstep : Option Nat) : Except PyExc Bool :=
  match cstep with
  | none => Except.ok false
  | some c => if 0 < s then (pymod s (some c)).map (fun r => r == 0) else Except.ok false

/-- One iteration of the training loop body after `_train_step` returned
with global step `s`: the train-step effect, then possibly a summary entry,
then possibly a periodic checkpoint.  Returns the effects emitted by the
iteration and the exception it raised, if any (effects emitted before the
raise are kept). -/
def loopBody (dir : String) (sstep cstep : Option Nat) (s : Nat) :
    List Effect × Option PyExc :=
  match summaryGuard s sstep with
  | Except.error e => ([Effect.trainStep], some e)
  | Except.ok doSum =>
    let sumEffs := if doSum then [Effect.addSummary s] else []
    match checkpointGuard s cstep with
    | Except.error e => (Effect.trainStep :: sumEffs, some e)
    | Except.ok doCkpt =>
      (Effect.trainStep :: (sumEffs ++ (if doCkpt then save_effects dir else [])), none)

/-- The `except` clauses of `train`: `KeyboardInterrupt` and
`tf.errors.OutOfRangeError` each save a checkpoint and end the loop; any
other exception is not matched and propagates. -/
def handleLoopExc (dir : String) (e : PyExc) : List Effect × LoopExit :=
  match e with
  | PyExc.keyboardInterrupt => (save_effects dir, LoopExit.interrupted)
  | PyExc.outOfRangeError => (save_effects dir, LoopExit.exhausted)
  | e => ([], LoopExit.uncaught e)

/-- The `while not coord.should_stop()` loop of `train`, consuming the
event trace. -/
def trainLoop (dir : String) (sstep cstep : Option Nat) :
    List TrainEvent → List Effect × LoopExit
  | [] => ([], LoopExit.ranOut)
  | TrainEvent.coordStop :: _ => ([], LoopExit.normal)
  | TrainEvent.stepRaise e :: _ => handleLoopExc dir e
  | TrainEvent.stepResult s :: rest =>
    match loopBody dir sstep cstep s with
    | (effs, some e) =>
      let h := handleLoopExc dir e
      (effs ++ h.1, h.2)
    | (effs, none) =>
      let t := trainLoop dir sstep cstep rest
      (effs ++ t.1, t.2)

/-- Effects of `train` before the loop: create the summary `FileWriter` on
`self.checkpoint_dir`, run the variable inits, load a checkpoint when
`resume` is set, create the coordinator and start the queue-runner
threads. -/
def train_prologue (dir : String) (resume : Bool) : List Effect :=
  Effect.createFileWriter dir :: Effect.initLocalVars :: Effect.initGlobalVars ::
    ((if resume then load_effects dir else []) ++
      [Effect.startCoordinator, Effect.startThreads])

/-- Effects after the loop: the `finally` block (`coord.request_stop()`;
`summary_writer.close()`) runs on every exit, while `coord.join(threads)`
runs only when no exception is propagating.  When the trace ran out the
loop is still live and none of this has happened yet. -/
def train_epilogue : LoopExit → List Effect
  | LoopExit.normal => [Effect.requestStop, Effect.closeWriter, Effect.joinThreads]
  | LoopExit.interrupted => [Effect.requestStop, Effect.closeWriter, Effect.joinThreads]
  | LoopExit.exhausted => [Effect.requestStop, Effect.closeWriter, Effect.joinThreads]
  | LoopExit.uncaught _ => [Effect.requestStop, Effect.closeWriter]
  | LoopExit.ranOut => []

/-- Outcome of `train` for each loop exit. -/
def outcomeOf : LoopExit → Outcome
  | LoopExit.normal => Outcome.returned
  | LoopExit.interrupted => Outcome.returned
  | LoopExit.exhausted => Outcome.returned
  | LoopExit.uncaught e => Outcome.raised e
  | LoopExit.ranOut => Outcome.running

/-- `BaseModel.train(learning_rate, resume, summary_step, checkpoint_step)`
on an event trace: the pre-loop effects, the loop, and the shutdown
sequence, paired with the call's outcome. -/
def train (dir : String) (resume : Bool) (sstep cstep : Option Nat)
    (events : List TrainEvent) : List Effect × Outcome :=
  let r := trainLoop dir sstep cstep events
  (train_prologue dir resume ++ r.1 ++ train_epilogue r.2, outcomeOf r.2)

/-- Whether a method of a Python class is declared `@abc.abstractmethod` or
given a concrete body. -/
inductive MethodKind
  | abstractMeth
  | concreteMeth
deriving DecidableEq, Repr

/-- The methods of class `BaseModel` in `tflib/model.py`, in source order,
each with its kind. -/
def baseModelMethods : List (String × MethodKind) :=
  [("__init__", MethodKind.concreteMeth),
   ("_setup_prediction", MethodKind.abstractMeth),
   ("_setup_loss", MethodKind.abstractMeth),
   ("_setup_optimizer", MethodKind.abstractMeth),
   ("_tofetch", MethodKind.abstractMeth),
   ("_train_step", MethodKind.concreteMeth),
   ("_test_step", MethodKind.concreteMeth),
   ("_summary_step", MethodKind.abstractMeth),
   ("load", MethodKind.concreteMeth),
   ("save", MethodKind.concreteMeth),
   ("train", MethodKind.concreteMeth)]

/-- Names of the methods of `BaseModel` declared `@abc.abstractmethod`. -/
def baseModelAbstractMethods : List String :=
  (baseModelMethods.filter (fun m => decide (m.2 = MethodKind.abstractMeth))).map
    (fun m => m.1)

/-- Values assignable to a `Config` attribute: a float literal (denoted
exactly by numerator and denominator of its decimal value, so `1e-3` is
`vFloat 1 1000`), an int literal, or `None`. -/
inductive ConfigVal
  | vFloat (num : Int) (den : Nat)
  | vInt (n : Int)
  | vNone
deriving DecidableEq, Repr

/-- The attribute assignments performed by `Config.__init__` in
`convnet/config.py`, in source order. -/
def configInit : List (String × ConfigVal) :=
  [("learning_rate", ConfigVal.vFloat 1 1000),
   ("display_step", ConfigVal.vInt 50),
   ("n_threads", ConfigVal.vInt 2),
   ("regularization", ConfigVal.vFloat 1 1000),
   ("n_epochs", ConfigVal.vNone)]

/-- The methods of class `Config`. -/
def configMethods : List (String × MethodKind) :=
  [("__init__", MethodKind.concreteMeth)]

/-- Abstract handle for the input tensor(s) passed to `BaseModel.__init__`. -/
abbrev TensorRef := Nat

/-- The attributes set by `BaseModel.__init__` on the new object. -/
structure BaseModelState where
  inputs : TensorRef
  checkpoint_dir : String
  is_training : Bool
  layers : List (String × TensorRef)
  summaries : List TensorRef
  eval_summaries : List TensorRef
  global_step : Nat
  saver : Bool
deriving DecidableEq, Repr

/-- `BaseModel.__init__(inputs, checkpoint_dir, is_training, reuse)`:
stores `inputs`, `checkpoint_dir` and `is_training`, creates the empty
`layers` dict and the empty summary lists, creates `global_step` at 0,
runs the subclass hook `_setup_prediction` (modelled as an arbitrary state
transformer `setup`), and creates the saver.  The `reuse` argument is
never stored or read. -/
def baseModelInit (setup : BaseModelState → BaseModelState)
    (inputs : TensorRef) (checkpoint_dir : String)
    (is_training : Bool) (reuse : Bool) : BaseModelState :=
  let st : BaseModelState :=
    { inputs := inputs
      checkpoint_dir := checkpoint_dir
      is_training := is_training
      layers := []
      summaries := []
      eval_summaries := []
      global_step := 0
      saver := false }
  let st := setup st
  { st with saver := true }

/-- Modelled from the spec: the data-feeding pipeline (queued input
readers) is not under `src/`; only `Config.n_epochs` with the comment
"Number of epochs, None is infinite" and the spec's "a bounded or
unbounded loop of train-steps ... shutdown ... on interrupt or data
exhaustion" describe it.  With a finite `n_epochs = some n` the pipeline
delivers `n * batchesPerEpoch` batches and then raises
`tf.errors.OutOfRangeError`; with `n_epochs = none` it never raises it, so
any finite prefix of the run consists of successful train-steps.  `stepOf`
gives the global step fetched at each iteration and `limit` the length of
the observed prefix in the unbounded case. -/
def pipelineTrace (n_epochs : Option Nat) (batchesPerEpoch : Nat)
    (stepOf : Nat → Nat) (limit : Nat) : List TrainEvent :=
  match n_epochs with
  | some n =>
    (List.range (n * batchesPerEpoch)).map (fun i => TrainEvent.stepResult (stepOf i)) ++
      [TrainEvent.stepRaise PyExc.outOfRangeError]
  | none =>
    (List.range limit).map (fun i => TrainEvent.stepResult (stepOf i))

/-! ### Helper lemmas (shared) -/

/-- Python `s % m` for a positive int `m` never raises. -/
lemma pymod_pos (s m : Nat) (hm : 0 < m) : pymod s (some m) = Except.ok (s % m) := by
  cases m with
  | zero => exact absurd hm (by decide)
  | succ k => rfl

/-- Number of train-step effects in an effect list. -/
def countTrainSteps (l : List Effect) : Nat :=
  (l.filter (fun x => decide (x = Effect.trainStep))).length

lemma countTrainSteps_append (l1 l2 : List Effect) :
    countTrainSteps (l1 ++ l2) = countTrainSteps l1 + countTrainSteps l2 := by
  simp [countTrainSteps, List.filter_append]

lemma countTrainSteps_save (dir : String) : countTrainSteps (save_effects dir) = 0 := by
  simp [countTrainSteps, save_effects]

/-- Every effect emitted by one loop iteration is the train-step itself, a
summary entry for the fetched step, or part of a checkpoint save. -/
lemma mem_loopBody (dir : String) (sstep cstep : Option Nat) (s : Nat) (x : Effect)
    (hx : x ∈ (loopBody dir sstep cstep s).1) :
    x = Effect.trainStep ∨ x = Effect.addSummary s ∨ x ∈ save_effects dir := by
  unfold loopBody at hx
  cases h1 : summaryGuard s sstep with
  | error e => rw [h1] at hx; simp at hx; simp [hx]
  | ok doSum =>
    rw [h1] at hx
    cases h2 : checkpointGuard s cstep with
    | error e =>
      rw [h2] at hx
      cases doSum <;> simp at hx <;> tauto
    | ok doCkpt =>
      rw [h2] at hx
      cases doSum <;> cases doCkpt <;> simp at hx <;> tauto

/-- Every effect emitted by the two exception handlers is part of a
checkpoint save. -/
lemma mem_handleLoopExc (dir : String) (e : PyExc) (x : Effect)
    (hx : x ∈ (handleLoopExc dir e).1) : x ∈ save_effects dir := by
  cases e <;> simp [handleLoopExc] at hx <;> simp [hx]

/-- Every effect emitted by the training loop is a train-step, a summary
entry, or part of a checkpoint save. -/
lemma mem_trainLoop (dir : String) (sstep cstep : Option Nat) (x : Effect) :
    ∀ events : List TrainEvent, x ∈ (trainLoop dir sstep cstep events).1 →
      x = Effect.trainStep ∨ (∃ s, x = Effect.addSummary s) ∨ x ∈ save_effects dir := by
  intro events
  induction events with
  | nil => intro hx; simp [trainLoop] at hx
  | cons ev rest ih =>
    intro hx
    cases ev with
    | coordStop => simp [trainLoop] at hx
    | stepRaise e =>
      have := mem_handleLoopExc dir e x (by simpa [trainLoop] using hx)
      tauto
    | stepResult s =>
      rw [trainLoop] at hx
      cases hb : loopBody dir sstep cstep s with
      | mk effs exc =>
        cases exc with
        | some e =>
          rw [hb] at hx
          simp at hx
          rcases hx with hx | hx
          · have := mem_loopBody dir sstep cstep s x (hb ▸ hx)
            tauto
          · have := mem_handleLoopExc dir e x hx
            tauto
        | none =>
          rw [hb] at hx
          simp at hx
          rcases hx with hx | hx
          · have := mem_loopBody dir sstep cstep s x (hb ▸ hx)
            tauto
          · exact ih hx

lemma summaryGuard_pos (s m : Nat) (hm : 0 < m) :
    summaryGuard s (some m) = Except.ok (decide (0 < s) && (s % m == 0)) := by
  unfold summaryGuard
  rw [pymod_pos s m hm]
  by_cases hs : 0 < s <;> simp [hs, Except.map]

lemma checkpointGuard_pos (s c : Nat) (hc : 0 < c) :
    checkpointGuard s (some c) = Except.ok (decide (0 < s) && (s % c == 0)) := by
  have h : checkpointGuard s (some c) =
      if 0 < s then (pymod s (some c)).map (fun r => r == 0) else Except.ok false := rfl
  rw [h, pymod_pos s c hc]
  by_cases hs : 0 < s <;> simp [hs, Except.map]

/-- Closed form of a loop iteration when both period arguments are
positive ints: one train-step, a summary entry exactly at positive
multiples of `summary_step`, a checkpoint save exactly at positive
multiples of `checkpoint_step`, and no exception. -/
lemma loopBody_pos (dir : String) (s m c : Nat) (hm : 0 < m) (hc : 0 < c) :
    loopBody dir (some m) (some c) s =
      (Effect.trainStep ::
        ((if 0 < s ∧ s % m = 0 then [Effect.addSummary s] else []) ++
          (if 0 < s ∧ s % c = 0 then save_effects dir else [])), none) := by
  unfold loopBody
  rw [summaryGuard_pos s m hm, checkpointGuard_pos s c hc]
  by_cases hs : 0 < s <;> by_cases h1 : s % m = 0 <;> by_cases h2 : s % c = 0 <;>
    simp [hs, h1, h2]

/-- With `checkpoint_step = None` a loop iteration never writes a
checkpoint. -/
lemma loopBody_none_no_write (dir : String) (sstep : Option Nat) (s : Nat)
    (p : String) : Effect.writeCheckpoint p ∉ (loopBody dir sstep none s).1 := by
  intro hp
  unfold loopBody at hp
  cases h1 : summaryGuard s sstep with
  | error e => rw [h1] at hp; simp at hp
  | ok doSum =>
    rw [h1] at hp
    have hcg : checkpointGuard s none = Except.ok false := rfl
    rw [hcg] at hp
    cases doSum <;> simp at hp

/-- Every effect of the shutdown sequence is a stop request, a writer
close, or a thread join. -/
lemma mem_epilogue (ex : LoopExit) (x : Effect) (hx : x ∈ train_epilogue ex) :
    x = Effect.requestStop ∨ x = Effect.closeWriter ∨ x = Effect.joinThreads := by
  cases ex <;> simp [train_epilogue] at hx <;> tauto

lemma countTrainSteps_eq_zero {l : List Effect} (h : Effect.trainStep ∉ l) :
    countTrainSteps l = 0 := by
  unfold countTrainSteps
  rw [List.length_eq_zero, List.filter_eq_nil_iff]
  intro a ha
  simp only [decide_eq_true_eq]
  intro heq
  exact h (heq ▸ ha)

lemma countTrainSteps_prologue (dir : String) (resume : Bool) :
    countTrainSteps (train_prologue dir resume) = 0 := by
  apply countTrainSteps_eq_zero
  cases resume <;> simp [train_prologue, load_effects]

lemma countTrainSteps_epilogue (ex : LoopExit) :
    countTrainSteps (train_epilogue ex) = 0 := by
  apply countTrainSteps_eq_zero
  cases ex <;> simp [train_epilogue]

lemma countTrainSteps_cons_trainStep (l : List Effect) :
    countTrainSteps (Effect.trainStep :: l) = countTrainSteps l + 1 := by
  simp [countTrainSteps, List.filter_cons]

/-- A loop iteration with positive period arguments performs exactly one
train-step. -/
lemma countTrainSteps_loopBody_pos (dir : String) (s m c : Nat)
    (hm : 0 < m) (hc : 0 < c) :
    countTrainSteps (loopBody dir (some m) (some c) s).1 = 1 := by
  have hfst : (loopBody dir (some m) (some c) s).1 =
      Effect.trainStep ::
        ((if 0 < s ∧ s % m = 0 then [Effect.addSummary s] else []) ++
          (if 0 < s ∧ s % c = 0 then save_effects dir else [])) := by
    rw [loopBody_pos dir s m c hm hc]
  have h0 : countTrainSteps
      ((if 0 < s ∧ s % m = 0 then [Effect.addSummary s] else []) ++
        (if 0 < s ∧ s % c = 0 then save_effects dir else [])) = 0 := by
    apply countTrainSteps_eq_zero
    by_cases h1 : 0 < s ∧ s % m = 0 <;> by_cases h2 : 0 < s ∧ s % c = 0 <;>
      simp [h1, h2, save_effects]
  rw [hfst, countTrainSteps_cons_trainStep, h0]

/-- Running the loop over a block of successful train-steps with positive
period arguments adds one train-step effect per block element and leaves
the exit unchanged. -/
lemma trainLoop_stepBlock (dir : String) (m c : Nat) (hm : 0 < m) (hc : 0 < c) :
    ∀ (l : List Nat) (tail : List TrainEvent),
      countTrainSteps (trainLoop dir (some m) (some c)
          (l.map TrainEvent.stepResult ++ tail)).1 =
        l.length + countTrainSteps (trainLoop dir (some m) (some c) tail).1 ∧
      (trainLoop dir (some m) (some c) (l.map TrainEvent.stepResult ++ tail)).2 =
        (trainLoop dir (some m) (some c) tail).2 := by
  intro l
  induction l with
  | nil => intro tail; simp
  | cons s l ih =>
    intro tail
    have hb := loopBody_pos dir s m c hm hc
    have hstep : trainLoop dir (some m) (some c)
        (TrainEvent.stepResult s :: (l.map TrainEvent.stepResult ++ tail)) =
        ((loopBody dir (some m) (some c) s).1 ++
          (trainLoop dir (some m) (some c) (l.map TrainEvent.stepResult ++ tail)).1,
         (trainLoop dir (some m) (some c) (l.map TrainEvent.stepResult ++ tail)).2) := by
      rw [trainLoop, hb]
    rcases ih tail with ⟨ihc, ihe⟩
    constructor
    · rw [List.map_cons, List.cons_append, hstep]
      rw [countTrainSteps_append, countTrainSteps_loopBody_pos dir s m c hm hc, ihc]
      simp
      omega
    · rw [List.map_cons, List.cons_append, hstep]
      exact ihe

/-! ### Claim theorems -/

/-- C1: `BaseModel.train` handles exactly two failure conditions — on a
`KeyboardInterrupt` it saves a checkpoint and stops the loop, on
`tf.errors.OutOfRangeError` it saves a checkpoint and stops the loop, and
every other exception raised inside the training loop propagates uncaught
out of `train`. -/
theorem spec_C1 (dir : String) (resume : Bool) (sstep cstep : Option Nat)
    (rest : List TrainEvent) (e : PyExc) :
    trainLoop dir sstep cstep (TrainEvent.stepRaise PyExc.keyboardInterrupt :: rest) =
      (save_effects dir, LoopExit.interrupted) ∧
    (train dir resume sstep cstep
      (TrainEvent.stepRaise PyExc.keyboardInterrupt :: rest)).2 = Outcome.returned ∧
    trainLoop dir sstep cstep (TrainEvent.stepRaise PyExc.outOfRangeError :: rest) =
      (save_effects dir, LoopExit.exhausted) ∧
    (train dir resume sstep cstep
      (TrainEvent.stepRaise PyExc.outOfRangeError :: rest)).2 = Outcome.returned ∧
    (e ≠ PyExc.keyboardInterrupt → e ≠ PyExc.outOfRangeError →
      trainLoop dir sstep cstep (TrainEvent.stepRaise e :: rest) =
        ([], LoopExit.uncaught e) ∧
      (train dir resume sstep cstep (TrainEvent.stepRaise e :: rest)).2 =
        Outcome.raised e) := by
  refine ⟨rfl, rfl, rfl, rfl, fun h1 h2 => ?_⟩
  cases e with
  | keyboardInterrupt => exact absurd rfl h1
  | outOfRangeError => exact absurd rfl h2
  | typeError => exact ⟨rfl, rfl⟩
  | zeroDivisionError => exact ⟨rfl, rfl⟩
  | other code => exact ⟨rfl, rfl⟩

/-- Witness for C1 at the concrete unhandled exception `other 0`. -/
theorem spec_C1_witness :
    trainLoop "ckpt" none none [TrainEvent.stepRaise (PyExc.other 0)] =
      ([], LoopExit.uncaught (PyExc.other 0)) ∧
    (train "ckpt" false none none [TrainEvent.stepRaise (PyExc.other 0)]).2 =
      Outcome.raised (PyExc.other 0) :=
  (spec_C1 "ckpt" false none none [] (PyExc.other 0)).2.2.2.2
    (by decide) (by decide)

/-- C2: whenever the training loop ends on interrupt or data exhaustion,
`train` requests the coordinator stop, closes the summary writer, and then
joins the data threads, in that order, and returns normally. -/
theorem spec_C2 (dir : String) (resume : Bool) (sstep cstep : Option Nat)
    (events : List TrainEvent) (l : List Effect) (ex : LoopExit)
    (hrun : trainLoop dir sstep cstep events = (l, ex))
    (hex : ex = LoopExit.interrupted ∨ ex = LoopExit.exhausted) :
    train dir resume sstep cstep events =
      (train_prologue dir resume ++ l ++
        [Effect.requestStop, Effect.closeWriter, Effect.joinThreads],
       Outcome.returned) := by
  unfold train
  rw [hrun]
  rcases hex with h | h <;> subst h <;> rfl

/-- Witness for C2 on a trace interrupted at the first iteration. -/
theorem spec_C2_witness :
    train "ckpt" false (some 100) (some 100)
        [TrainEvent.stepRaise PyExc.keyboardInterrupt] =
      (train_prologue "ckpt" false ++ save_effects "ckpt" ++
        [Effect.requestStop, Effect.closeWriter, Effect.joinThreads],
       Outcome.returned) :=
  spec_C2 "ckpt" false (some 100) (some 100)
    [TrainEvent.stepRaise PyExc.keyboardInterrupt]
    (save_effects "ckpt") LoopExit.interrupted rfl (Or.inl rfl)

/-- C3 counterexample: the claim says `BaseModel` declares exactly four
abstract extension points, but the class declares five methods with
`@abc.abstractmethod`. -/
theorem spec_C3_counterexample :
    baseModelAbstractMethods.length = 5 ∧ baseModelAbstractMethods.length ≠ 4 := by
  decide

/-- C3 (amended): `BaseModel` declares exactly five abstract extension
points — `_setup_prediction`, `_setup_loss`, `_setup_optimizer`,
`_tofetch`, `_summary_step` — while `load`, `save` and `train` are
concrete methods. -/
theorem spec_C3_amended :
    baseModelAbstractMethods =
      ["_setup_prediction", "_setup_loss", "_setup_optimizer",
       "_tofetch", "_summary_step"] ∧
    ("load", MethodKind.concreteMeth) ∈ baseModelMethods ∧
    ("save", MethodKind.concreteMeth) ∈ baseModelMethods ∧
    ("train", MethodKind.concreteMeth) ∈ baseModelMethods := by
  decide

/-- C5 counterexample: the claim lists exactly four constructor fields,
but `Config.__init__` also sets `display_step = 50`, which is not among
the four claimed field names. -/
theorem spec_C5_counterexample :
    ("display_step", ConfigVal.vInt 50) ∈ configInit ∧
    "display_step" ∉ ["learning_rate", "n_epochs", "n_threads", "regularization"] := by
  decide

/-- C5 (amended): `Config` is a plain data holder whose constructor sets
exactly the five fields `learning_rate = 1e-3`, `display_step = 50`,
`n_threads = 2`, `regularization = 1e-3` and `n_epochs = None`, and the
class defines no method other than `__init__`. -/
theorem spec_C5_amended :
    configInit.map (fun a => a.1) =
      ["learning_rate", "display_step", "n_threads", "regularization", "n_epochs"] ∧
    configInit.lookup "learning_rate" = some (ConfigVal.vFloat 1 1000) ∧
    configInit.lookup "display_step" = some (ConfigVal.vInt 50) ∧
    configInit.lookup "n_threads" = some (ConfigVal.vInt 2) ∧
    configInit.lookup "regularization" = some (ConfigVal.vFloat 1 1000) ∧
    configInit.lookup "n_epochs" = some ConfigVal.vNone ∧
    configMethods.map (fun a => a.1) = ["__init__"] := by
  decide

/-- C9: the `reuse` parameter of `BaseModel.__init__` has no effect — two
constructions differing only in `reuse` produce identical object states,
for every subclass hook `_setup_prediction`. -/
theorem spec_C9 (setup : BaseModelState → BaseModelState) (inputs : TensorRef)
    (dir : String) (is_training r1 r2 : Bool) :
    baseModelInit setup inputs dir is_training r1 =
      baseModelInit setup inputs dir is_training r2 := rfl

/-- C7: `train` constructs its summary `FileWriter` on
`self.checkpoint_dir` (it is the first effect of every call), and an
iteration of the loop adds a summary entry for its step exactly when that
step is a positive multiple of the `summary_step` argument. -/
theorem spec_C7 (dir : String) (resume : Bool) (sstep cstep : Option Nat)
    (events : List TrainEvent) (s m : Nat) :
    (train dir resume sstep cstep events).1.head? =
      some (Effect.createFileWriter dir) ∧
    (0 < m →
      (Effect.addSummary s ∈ (loopBody dir (some m) cstep s).1 ↔
        0 < s ∧ s % m = 0)) := by
  constructor
  · simp [train, train_prologue]
  · intro hm
    unfold loopBody summaryGuard
    rw [pymod_pos s m hm]
    by_cases hs : 0 < s
    · simp only [hs, if_pos, Except.map]
      cases hcg : checkpointGuard s cstep with
      | error e =>
        by_cases hmod : s % m = 0 <;>
          simp [hmod, hs, save_effects]
      | ok doCkpt =>
        by_cases hmod : s % m = 0 <;>
          cases doCkpt <;>
            simp [hmod, hs, save_effects]
    · simp only [hs, if_neg, if_false]
      cases hcg : checkpointGuard s cstep with
      | error e => simp [hs]
      | ok doCkpt => cases doCkpt <;> simp [hs, save_effects]

/-- Witness for C7 at `summary_step = 100`, step 200. -/
theorem spec_C7_witness :
    Effect.addSummary 200 ∈ (loopBody "ckpt" (some 100) (some 100) 200).1 :=
  ((spec_C7 "ckpt" false (some 100) (some 100) [] 200 100).2
    (by decide)).mpr (by decide)

/-- C8: an iteration of the training loop saves a periodic checkpoint for
its step exactly when `checkpoint_step` is not `None` and the step is a
positive multiple of `checkpoint_step`; with `checkpoint_step = None` no
iteration ever writes a checkpoint. -/
theorem spec_C8 (dir : String) (sstep : Option Nat) (s m c : Nat) :
    (∀ p, Effect.writeCheckpoint p ∉ (loopBody dir sstep none s).1) ∧
    (0 < m → 0 < c →
      (Effect.writeCheckpoint (os_path_join dir "model") ∈
          (loopBody dir (some m) (some c) s).1 ↔
        0 < s ∧ s % c = 0)) := by
  constructor
  · intro p
    exact loopBody_none_no_write dir sstep s p
  · intro hm hc
    rw [loopBody_pos dir s m c hm hc]
    by_cases hs : 0 < s <;> by_cases h2 : s % c = 0 <;>
      by_cases h1 : s % m = 0 <;>
        simp [hs, h1, h2, save_effects]

/-- Witness for C8 at `checkpoint_step = 100`, step 200. -/
theorem spec_C8_witness :
    Effect.writeCheckpoint (os_path_join "ckpt" "model") ∈
      (loopBody "ckpt" (some 100) (some 100) 200).1 :=
  ((spec_C8 "ckpt" (some 100) 200 100 100).2
    (by decide) (by decide)).mpr (by decide)

/-- C10: at step 0 an iteration of the training loop emits neither a
summary entry nor a periodic checkpoint (both guards short-circuit on
`step > 0`); `checkpoint_step = None` disables periodic checkpointing
entirely; and `summary_step = None` makes the loop raise a `TypeError` at
the modulus test of the first positive step, which propagates out of
`train`. -/
theorem spec_C10 (dir : String) (sstep cstep : Option Nat) (s : Nat)
    (rest : List TrainEvent) :
    loopBody dir sstep cstep 0 = ([Effect.trainStep], none) ∧
    (∀ p, Effect.writeCheckpoint p ∉ (loopBody dir sstep none s).1) ∧
    (0 < s →
      trainLoop dir none cstep (TrainEvent.stepResult s :: rest) =
        ([Effect.trainStep], LoopExit.uncaught PyExc.typeError) ∧
      (train dir false none cstep (TrainEvent.stepResult s :: rest)).2 =
        Outcome.raised PyExc.typeError) := by
  refine ⟨?_, ?_, ?_⟩
  · unfold loopBody summaryGuard checkpointGuard
    cases cstep <;> simp
  · intro p
    exact loopBody_none_no_write dir sstep s p
  · intro hs
    have hb : loopBody dir none cstep s = ([Effect.trainStep], some PyExc.typeError) := by
      unfold loopBody summaryGuard
      simp [hs, pymod, Except.map]
    constructor
    · rw [trainLoop, hb]
      simp [handleLoopExc]
    · simp [train, trainLoop, hb, handleLoopExc, outcomeOf]

/-- C4: with both period arguments positive ints, a run over the pipeline
with a finite epoch count `n` performs exactly `n * batchesPerEpoch`
train-steps and `train` returns (the loop ends by data exhaustion), while
with epoch count `None` every observed prefix, of any length, consists of
that many train-steps with the loop still running — the loop is unbounded
and ends only on interrupt or exhaustion. -/
theorem spec_C4 (dir : String) (resume : Bool) (stepOf : Nat → Nat)
    (n bpe m c : Nat) (hm : 0 < m) (hc : 0 < c) :
    (countTrainSteps (train dir resume (some m) (some c)
        (pipelineTrace (some n) bpe stepOf 0)).1 = n * bpe ∧
      (train dir resume (some m) (some c)
        (pipelineTrace (some n) bpe stepOf 0)).2 = Outcome.returned) ∧
    (∀ limit : Nat,
      countTrainSteps (train dir resume (some m) (some c)
          (pipelineTrace none bpe stepOf limit)).1 = limit ∧
      (train dir resume (some m) (some c)
        (pipelineTrace none bpe stepOf limit)).2 = Outcome.running) := by
  have htrain : ∀ events : List TrainEvent,
      countTrainSteps (train dir resume (some m) (some c) events).1 =
        countTrainSteps (trainLoop dir (some m) (some c) events).1 ∧
      (train dir resume (some m) (some c) events).2 =
        outcomeOf (trainLoop dir (some m) (some c) events).2 := by
    intro events
    constructor
    · simp [train, countTrainSteps_append, countTrainSteps_prologue,
        countTrainSteps_epilogue]
    · rfl
  have hblock : ∀ (k : Nat) (tail : List TrainEvent),
      (List.range k).map (fun i => TrainEvent.stepResult (stepOf i)) ++ tail =
        ((List.range k).map stepOf).map TrainEvent.stepResult ++ tail := by
    intro k tail
    rw [List.map_map]
    rfl
  constructor
  · have hb := trainLoop_stepBlock dir m c hm hc ((List.range (n * bpe)).map stepOf)
      [TrainEvent.stepRaise PyExc.outOfRangeError]
    rcases hb with ⟨hbc, hbe⟩
    have htail : trainLoop dir (some m) (some c)
        [TrainEvent.stepRaise PyExc.outOfRangeError] =
        (save_effects dir, LoopExit.exhausted) := rfl
    rcases htrain (pipelineTrace (some n) bpe stepOf 0) with ⟨hc1, hc2⟩
    constructor
    · rw [hc1]
      show countTrainSteps (trainLoop dir (some m) (some c)
        ((List.range (n * bpe)).map (fun i => TrainEvent.stepResult (stepOf i)) ++
          [TrainEvent.stepRaise PyExc.outOfRangeError])).1 = n * bpe
      rw [hblock, hbc, htail, countTrainSteps_save]
      simp
    · rw [hc2]
      show outcomeOf (trainLoop dir (some m) (some c)
        ((List.range (n * bpe)).map (fun i => TrainEvent.stepResult (stepOf i)) ++
          [TrainEvent.stepRaise PyExc.outOfRangeError])).2 = Outcome.returned
      rw [hblock, hbe, htail]
      rfl
  · intro limit
    have hmap : (List.range limit).map (fun i => TrainEvent.stepResult (stepOf i)) =
        ((List.range limit).map stepOf).map TrainEvent.stepResult := by
      rw [List.map_map]
      rfl
    have hb := trainLoop_stepBlock dir m c hm hc ((List.range limit).map stepOf) []
    rcases hb with ⟨hbc, hbe⟩
    rw [List.append_nil] at hbc hbe
    rcases htrain (pipelineTrace none bpe stepOf limit) with ⟨hc1, hc2⟩
    constructor
    · rw [hc1]
      show countTrainSteps (trainLoop dir (some m) (some c)
        ((List.range limit).map (fun i => TrainEvent.stepResult (stepOf i)))).1 = limit
      rw [hmap, hbc]
      simp [trainLoop, countTrainSteps]
    · rw [hc2]
      show outcomeOf (trainLoop dir (some m) (some c)
        ((List.range limit).map (fun i => TrainEvent.stepResult (stepOf i)))).2 =
          Outcome.running
      rw [hmap, hbe]
      rfl

/-- Witness for C4 at two epochs of three batches with periods 100. -/
theorem spec_C4_witness :
    countTrainSteps (train "ckpt" false (some 100) (some 100)
        (pipelineTrace (some 2) 3 (fun i => i + 1) 0)).1 = 2 * 3 ∧
    (train "ckpt" false (some 100) (some 100)
      (pipelineTrace (some 2) 3 (fun i => i + 1) 0)).2 = Outcome.returned :=
  (spec_C4 "ckpt" false (fun i => i + 1) 2 3 100 100
    (by decide) (by decide)).1

/-- C6: the checkpoint directory is read by `train` exactly when
`resume = True` (through `load`), every checkpoint write of a `train` run
targets `join(checkpoint_dir, 'model')`, `save` first creates the
directory if absent and then writes that path, and the two handled loop
exits (interrupt, data exhaustion) invoke `save`. -/
theorem spec_C6 (dir : String) (resume : Bool) (sstep cstep : Option Nat)
    (events : List TrainEvent) :
    (∀ d, Effect.readCheckpoint d ∈ (train dir resume sstep cstep events).1 ↔
      resume = true ∧ d = dir) ∧
    (∀ p, Effect.writeCheckpoint p ∈ (train dir resume sstep cstep events).1 →
      p = os_path_join dir "model") ∧
    save_effects dir =
      [Effect.ensureDir dir, Effect.writeCheckpoint (os_path_join dir "model")] ∧
    handleLoopExc dir PyExc.keyboardInterrupt = (save_effects dir, LoopExit.interrupted) ∧
    handleLoopExc dir PyExc.outOfRangeError = (save_effects dir, LoopExit.exhausted) := by
  refine ⟨?_, ?_, rfl, rfl, rfl⟩
  · intro d
    constructor
    · intro hd
      have hd3 : Effect.readCheckpoint d ∈ train_prologue dir resume ∨
          Effect.readCheckpoint d ∈ (trainLoop dir sstep cstep events).1 ∨
          Effect.readCheckpoint d ∈
            train_epilogue (trainLoop dir sstep cstep events).2 := by
        simpa [train, List.mem_append, or_assoc] using hd
      rcases hd3 with h | h | h
      · cases resume with
        | false => simp [train_prologue, load_effects] at h
        | true =>
          simp [train_prologue, load_effects] at h
          exact ⟨rfl, h⟩
      · rcases mem_trainLoop dir sstep cstep _ events h with h1 | ⟨s, h1⟩ | h1
        · exact absurd h1 (by simp)
        · exact absurd h1 (by simp)
        · simp [save_effects] at h1
      · rcases mem_epilogue _ _ h with h1 | h1 | h1 <;> simp at h1
    · rintro ⟨hr, rfl⟩
      subst hr
      simp [train, train_prologue, load_effects]
  · intro p hp
    have hp3 : Effect.writeCheckpoint p ∈ train_prologue dir resume ∨
        Effect.writeCheckpoint p ∈ (trainLoop dir sstep cstep events).1 ∨
        Effect.writeCheckpoint p ∈
          train_epilogue (trainLoop dir sstep cstep events).2 := by
      simpa [train, List.mem_append, or_assoc] using hp
    rcases hp3 with h | h | h
    · cases resume <;> simp [train_prologue, load_effects] at h
    · rcases mem_trainLoop dir sstep cstep _ events h with h1 | ⟨s, h1⟩ | h1
      · exact absurd h1 (by simp)
      · exact absurd h1 (by simp)
      · simpa [save_effects] using h1
    · rcases mem_epilogue _ _ h with h1 | h1 | h1 <;> simp at h1

/-- Witness for C6: a resumed run reads the checkpoint directory. -/
theorem spec_C6_witness :
    Effect.readCheckpoint "ckpt" ∈ (train "ckpt" true none none []).1 :=
  ((spec_C6 "ckpt" true none none []).1 "ckpt").mpr ⟨rfl, rfl⟩

/-- Witness for C10: with `summary_step = None` the loop raises a
`TypeError` at step 1. -/
theorem spec_C10_witness :
    trainLoop "ckpt" none (some 100) [TrainEvent.stepResult 1] =
      ([Effect.trainStep], LoopExit.uncaught PyExc.typeError) ∧
    (train "ckpt" false none (some 100) [TrainEvent.stepResult 1]).2 =
      Outcome.raised PyExc.typeError :=
  (spec_C10 "ckpt" none (some 100) 1 []).2.2 (by decide)

end AIDP
